import Mathlib

/-!
# GX-Kernel: verification of the IPC, scheduler, queue, semaphore and timer services

A shallow embedding of the GX-Kernel sources (`src/kernel/ipc/event.c`,
`src/kernel/ipc/queue.c`, `src/kernel/ipc/semaphore.c`,
`src/kernel/ipc/semaphore_hw_generic.c`, `src/kernel/sched/task.c`,
`src/kernel/time/timer.c`, and the legacy `src/gxkSem.c`) together with
theorems settling the specification claims about those services.

Machine integers (`ULONG`, `LONG`) are embedded as `Nat` / `Int`; bitwise
operations use `Nat` bit operations, with the 32-bit C complement `~x`
written as `0xFFFFFFFF ^^^ x` (all masks involved are 32-bit values).
Global control blocks become explicit structure values threaded through the
functions; statistics counters and hardware-context pointers that no claim
observes are omitted from the structures.
-/

namespace GXK

/-! ## Error codes (gxkernel.h)

Numeric values preserved from `src/gxkernel.h`.  The kernel/ sources also
use `ERR_BADPARAM`, `ERR_SEMFULL`, `ERR_NOTACTIVE`, `ERR_NOMEM`,
`ERR_INTERNAL`, `ERR_NOTSUPPORTED` and `ERR_NORESOURCE`, which are defined
in no header of the tree; the error-as-value design (every call returns 0
on success and a nonzero code on failure, and every caller propagates via
`if (error != 0) return error;`) forces them to be nonzero and distinct
from the documented codes, so they are embedded here as fixed values
outside the documented range. -/

def errTIMEOUT : Nat := 0x01
def errOBJDEL : Nat := 0x05
def errOBJID : Nat := 0x06
def errOBJNF : Nat := 0x09
def errNOQCB : Nat := 0x33
def errNOMGB : Nat := 0x34
def errQFULL : Nat := 0x35
def errNOMSG : Nat := 0x37
def errNOEVS : Nat := 0x3C
def errNOSCB : Nat := 0x41
def errNOSEM : Nat := 0x42
def errILLTICKS : Nat := 0x4A
def errBADTMID : Nat := 0x4C

def errBADPARAM : Nat := 0x200
def errSEMFULL : Nat := 0x201
def errNOTACTIVE : Nat := 0x202

/-- 32-bit one's complement, the embedding of `~x` on a 32-bit mask. -/
def complement32 (x : Nat) : Nat := 0xFFFFFFFF ^^^ x

/-! ## Events (src/kernel/ipc/event.c, event.h)

Flag values are the ones from `gxkernel.h` (the `#ifndef` fallbacks in
`event.h` are not used because `gxkernel.h` is included first):
`EV_NOWAIT=0x01`, `EV_ANY=0x02`, `EV_ALL=0x00`.

The `EV_ECB` embedding keeps the fields the event logic reads and writes;
the `magic` field is dropped because every ECB handed out by
`ev_pool_get_task_ecb` comes from the pool initialised by `ev_pool_init`,
where `EV_IS_VALID_ECB` is always true.  Statistics counters and the
hardware context are omitted. -/

def EV_NOWAIT : Nat := 0x01
def EV_ANY : Nat := 0x02
def EV_ALL : Nat := 0x00

def EV_STATE_FREE : Nat := 0
def EV_STATE_WAITING : Nat := 1
def EV_STATE_SIGNALED : Nat := 2

def EV_ALL_EVENTS : Nat := 0xFFFFFFFF

structure EV_ECB where
  state : Nat
  pending_events : Nat
  waiting_events : Nat
  received_events : Nat
  wait_condition : Nat
  wait_flags : Nat
  timeout_ticks : Nat
deriving Repr, DecidableEq

/-- The ECB produced for each task by `ev_pool_init` (all fields zeroed,
then `state = EV_STATE_FREE`). -/
def evPoolInitEcb : EV_ECB :=
  { state := EV_STATE_FREE, pending_events := 0, waiting_events := 0,
    received_events := 0, wait_condition := 0, wait_flags := 0, timeout_ticks := 0 }

/-- `EV_IS_VALID_EVENT_MASK(mask)`: `mask != 0 && mask <= EV_ALL_EVENTS`;
`ev_validate_events` returns 0 or `ERR_BADPARAM`. -/
def ev_validate_events (events : Nat) : Nat :=
  if events ≠ 0 ∧ events ≤ EV_ALL_EVENTS then 0 else errBADPARAM

/-- `EV_IS_VALID_FLAGS(flags)`: `(flags & ~(EV_ANY | EV_NOWAIT)) == 0`. -/
def ev_validate_flags (flags : Nat) : Nat :=
  if flags &&& complement32 (EV_ANY ||| EV_NOWAIT) = 0 then 0 else errBADPARAM

/-- `ev_check_conditions` (event.c:84): returns 0 unless the ECB is in
`EV_STATE_WAITING`; otherwise evaluates `EV_CHECK_ALL_CONDITION`
(a 0/1 boolean) or `EV_CHECK_ANY_CONDITION` (the overlapping bits). -/
def ev_check_conditions (ecb : EV_ECB) : Nat :=
  if ecb.state ≠ EV_STATE_WAITING then 0
  else if ecb.wait_condition = EV_ALL then
    if ecb.pending_events &&& ecb.waiting_events = ecb.waiting_events then 1 else 0
  else
    ecb.pending_events &&& ecb.waiting_events

/-- `ev_update_pending` (event.c:102): `pending_events |= new_events`. -/
def ev_update_pending (ecb : EV_ECB) (new_events : Nat) : EV_ECB :=
  { ecb with pending_events := ecb.pending_events ||| new_events }

/-- `ev_clear_received` (event.c:114): clears the given bits from
`pending_events` and records them in `received_events`. -/
def ev_clear_received (ecb : EV_ECB) (events_to_clear : Nat) : EV_ECB :=
  { ecb with pending_events := ecb.pending_events &&& complement32 events_to_clear,
             received_events := events_to_clear }

/-- `ev_start_wait` (event.c:145): records the wait parameters and moves the
ECB to `EV_STATE_WAITING` (hardware event creation elided). -/
def ev_start_wait (ecb : EV_ECB) (events flags timeout : Nat) : EV_ECB :=
  { ecb with waiting_events := events,
             wait_condition := if flags &&& EV_ANY ≠ 0 then EV_ANY else EV_ALL,
             wait_flags := flags,
             timeout_ticks := timeout,
             state := EV_STATE_WAITING }

/-- Outcome of the synchronous part of `ev_receive`: either a return with a
code, a value for `*events_r` (`none` when the pointer is not written), and
the updated ECB — or the slow path that blocks on the hardware event. -/
inductive EvOutcome where
  | ret (code : Nat) (events_r : Option Nat) (ecb : EV_ECB)
  | blocked (ecb : EV_ECB)
deriving Repr, DecidableEq

/-- `ev_receive` (event.c:325), up to the point where the caller blocks.

The embedding takes the current task's ECB (looked up through
`ev_pool_get_task_ecb`) and mirrors the code: validate `events` and
`flags`; store `waiting_events` and `wait_condition`; consult
`ev_check_conditions`; on satisfaction consume via `ev_clear_received` and
return 0; otherwise return `ERR_NOEVS` under `EV_NOWAIT`, or enter the
wait via `ev_start_wait`.  The `events_r == NULL` check and
`ev_init_once` are outside this embedding (the caller passes a valid
pointer to an initialised subsystem). -/
def ev_receive (ecb : EV_ECB) (events flags timeout : Nat) : EvOutcome :=
  if ev_validate_events events ≠ 0 then .ret (ev_validate_events events) none ecb
  else if ev_validate_flags flags ≠ 0 then .ret (ev_validate_flags flags) none ecb
  else
    let ecb1 : EV_ECB :=
      { ecb with waiting_events := events,
                 wait_condition := if flags &&& EV_ANY ≠ 0 then EV_ANY else EV_ALL }
    let events_satisfied := ev_check_conditions ecb1
    if events_satisfied ≠ 0 then
      if ecb1.wait_condition = EV_ALL then
        .ret 0 (some (ecb1.pending_events &&& events)) (ev_clear_received ecb1 events)
      else
        .ret 0 (some (ecb1.pending_events &&& events))
          (ev_clear_received ecb1 (ecb1.pending_events &&& events))
    else if flags &&& EV_NOWAIT ≠ 0 then
      .ret errNOEVS (some 0) ecb1
    else
      .blocked (ev_start_wait ecb1 events flags timeout)

/-- `ev_send` (event.c:413), effect on the target task's ECB (task-id
validation happens before this point).  Pending bits are ORed in; if the
target is in `EV_STATE_WAITING` and its condition is now satisfied, the
satisfying bits are consumed (`ev_clear_received` also records them as
`received_events`; in the C code the preceding direct assignment to
`received_events` is overwritten by `ev_clear_received`) and the ECB moves
to `EV_STATE_SIGNALED`. -/
def ev_send_ecb (ecb : EV_ECB) (events : Nat) : EV_ECB :=
  let e1 := ev_update_pending ecb events
  if e1.state = EV_STATE_WAITING then
    let sat := ev_check_conditions e1
    if sat ≠ 0 then
      let e2 :=
        if e1.wait_condition = EV_ALL then ev_clear_received e1 e1.waiting_events
        else ev_clear_received e1 (e1.pending_events &&& e1.waiting_events)
      { e2 with state := EV_STATE_SIGNALED }
    else e1
  else e1

/-! ## Scheduler ready queues (src/kernel/sched/task.c, task.h)

`T_PRIORITY_TO_INDEX(pri) = pri <= 255 ? pri : 255`; the ready structure is
an array `ready_lists[256]` of intrusive doubly-linked task lists (embedded
as `List` of task ids in link order, head first) plus the readiness bitmap
`ready_mask` maintained by `T_SET_READY_BIT` / `T_CLEAR_READY_BIT`
(`ready_mask |= 1UL << idx`, embedded as `Nat` bits; the C shift is
undefined for `idx` at or beyond the `unsigned long` width, which the
claims do not exercise).  `T_FIND_HIGHEST_PRIORITY()` is
`__builtin_ctz(ready_mask)`, the number of trailing zero bits. -/

def T_STATE_READY : Nat := 2

def T_MAX_PRIORITY : Nat := 255

/-- `T_PRIORITY_TO_INDEX(pri)`. -/
def tPriorityToIndex (pri : Nat) : Nat :=
  if pri ≤ T_MAX_PRIORITY then pri else T_MAX_PRIORITY

/-- `__builtin_ctz` on a nonzero value below `2 ^ fuel`. -/
def ctzAux : Nat → Nat → Nat
  | 0, _ => 0
  | fuel + 1, n => if n % 2 = 1 then 0 else ctzAux fuel (n / 2) + 1

/-- `T_FIND_HIGHEST_PRIORITY()`: trailing zero count of the ready mask
(only ever consulted with a nonzero mask of at most 256 bit positions). -/
def tFindHighestPriority (mask : Nat) : Nat := ctzAux 256 mask

structure T_SCHEDULER where
  ready_lists : List (List Nat)
  ready_mask : Nat
deriving Repr, DecidableEq

/-- `t_scheduler_init` (task.c:174): all ready lists empty, mask 0. -/
def tSchedulerInit : T_SCHEDULER :=
  { ready_lists := List.replicate (T_MAX_PRIORITY + 1) [], ready_mask := 0 }

/-- `t_scheduler_add_ready` (task.c:195): a guard rejects tasks not in
`T_STATE_READY`; otherwise the task is linked at the HEAD of its priority
level's list ("Add to head of priority list") and the level's readiness
bit is set. -/
def t_scheduler_add_ready (s : T_SCHEDULER) (pri tid tstate : Nat) : T_SCHEDULER :=
  if tstate ≠ T_STATE_READY then s
  else
    let idx := tPriorityToIndex pri
    { ready_lists := s.ready_lists.set idx (tid :: s.ready_lists.getD idx []),
      ready_mask := s.ready_mask ||| (1 <<< idx) }

/-- `t_scheduler_get_highest_ready` (task.c:251): `NULL` when the mask is
zero, otherwise the head of the list at `T_FIND_HIGHEST_PRIORITY()`. -/
def t_scheduler_get_highest_ready (s : T_SCHEDULER) : Option Nat :=
  if s.ready_mask = 0 then none
  else (s.ready_lists.getD (tFindHighestPriority s.ready_mask) []).head?

/-! ## Message queues (src/kernel/ipc/queue.c, queue.h)

The global message-buffer arena (`Q_BUFFER_POOL`) has `Q_MAX_BUFFERS =
MAX_BUF = 2048` fixed 16-byte slots; its `buffers[]` storage is embedded as
a separate `Nat → QMsg` store so the bookkeeping structure stays decidable.
A message is four `ULONG` words.  Statistics counters updated by
`q_update_statistics` are omitted. -/

def Q_MAX_BUFFERS : Nat := 2048

def Q_MIN_COUNT : Nat := 4

def Q_MAX_COUNT : Nat := 1024

def Q_FIFO : Nat := 0x00
def Q_PRIOR : Nat := 0x02
def Q_GLOBAL : Nat := 0x01
def Q_LOCAL : Nat := 0x00
def Q_PRIBUF : Nat := 0x08
def Q_NOWAIT : Nat := 0x01

structure QMsg where
  w0 : Nat
  w1 : Nat
  w2 : Nat
  w3 : Nat
deriving Repr, DecidableEq

/-- `Q_BUFDESC` (queue.h:53): start/end slot indices of the queue's region
of the arena and the ring's input/output cursors (raw arena indices). -/
structure Q_BUFDESC where
  bstart : Nat
  bend : Nat
  nextin : Nat
  nextout : Nat
deriving Repr, DecidableEq

/-- `Q_QCB`, the fields the message path reads and writes. -/
structure Q_QCB where
  buf : Q_BUFDESC
  count : Nat
  current_messages : Nat
  high_water_mark : Nat
deriving Repr, DecidableEq

/-- `Q_BUFFER_FULL(qcb)` (queue.h:185): full when advancing `nextin` would
collide with `nextout`, i.e. `nextin + 1 == nextout` or (`nextin == end`
and `nextout == start`) — one slot of the region is reserved to
distinguish full from empty. -/
def qBufferFull (qcb : Q_QCB) : Bool :=
  qcb.buf.nextin + 1 = qcb.buf.nextout ∨
    (qcb.buf.nextin = qcb.buf.bend ∧ qcb.buf.nextout = qcb.buf.bstart)

/-- `Q_BUFFER_EMPTY(qcb)` (queue.h:188). -/
def qBufferEmpty (qcb : Q_QCB) : Bool :=
  qcb.buf.nextin = qcb.buf.nextout

/-- `Q_ADVANCE_INDEX(qcb, idx)` (queue.h:190): wrap from `end` to
`start`. -/
def qAdvanceIndex (buf : Q_BUFDESC) (idx : Nat) : Nat :=
  if idx = buf.bend then buf.bstart else idx + 1

/-- `Q_BUFFER_POOL` bookkeeping (queue.h:113); the `buffers[]` storage is
threaded separately. -/
structure Q_BUFFER_POOL where
  total_buffers : Nat
  next_available : Nat
  buffers_allocated : Nat
  allocation_failures : Nat
deriving Repr, DecidableEq

/-- `q_buffer_pool_init` (queue.c:194). -/
def qBufferPoolInit : Q_BUFFER_POOL :=
  { total_buffers := Q_MAX_BUFFERS, next_available := 0,
    buffers_allocated := 0, allocation_failures := 0 }

/-- `q_buffer_alloc` (queue.c:209): bump allocation from `next_available`;
on failure returns the invalid index `Q_MAX_BUFFERS` and counts a
failure. -/
def q_buffer_alloc (pool : Q_BUFFER_POOL) (count : Nat) : Nat × Q_BUFFER_POOL :=
  if count = 0 ∨ pool.next_available + count > pool.total_buffers then
    (Q_MAX_BUFFERS, { pool with allocation_failures := pool.allocation_failures + 1 })
  else
    (pool.next_available,
      { pool with next_available := pool.next_available + count,
                  buffers_allocated := pool.buffers_allocated + count })

/-- `q_buffer_free` (queue.c:226): validates the arguments and decrements
`buffers_allocated` only — the comment in the source notes that this
"Simple implementation doesn't actually reclaim memory"; `next_available`
is left unchanged. -/
def q_buffer_free (pool : Q_BUFFER_POOL) (start_index count : Nat) : Nat × Q_BUFFER_POOL :=
  if start_index ≥ pool.total_buffers ∨ count = 0 then (errBADPARAM, pool)
  else (0, { pool with buffers_allocated := pool.buffers_allocated - count })

/-- `q_buffer_available` (queue.c:241): `total_buffers - next_available`. -/
def q_buffer_available (pool : Q_BUFFER_POOL) : Nat :=
  pool.total_buffers - pool.next_available

/-- `q_message_enqueue` (queue.c:262) over the arena storage `store` (the
`q_buffer_get` bound check against `total` yields `ERR_NOMGB`).  Urgent
messages go to `nextout - 1` (wrapping backwards), normal messages to
`nextin`. -/
def q_message_enqueue (total : Nat) (store : Nat → QMsg) (qcb : Q_QCB)
    (msg : QMsg) (urgent : Bool) : Nat × (Nat → QMsg) × Q_QCB :=
  if qBufferFull qcb then (errQFULL, store, qcb)
  else
    let target :=
      if urgent then
        if qcb.buf.nextout = qcb.buf.bstart then qcb.buf.bend else qcb.buf.nextout - 1
      else qcb.buf.nextin
    let qcb1 :=
      if urgent then { qcb with buf := { qcb.buf with nextout := target } }
      else { qcb with buf := { qcb.buf with nextin := qAdvanceIndex qcb.buf qcb.buf.nextin } }
    if target ≥ total then (errNOMGB, store, qcb1)
    else
      let store1 := fun i => if i = target then msg else store i
      let cur := qcb1.current_messages + 1
      (0, store1,
        { qcb1 with current_messages := cur,
                    high_water_mark :=
                      if cur > qcb1.high_water_mark then cur else qcb1.high_water_mark })

/-- `q_message_dequeue` (queue.c:306): copy the slot at `nextout`, advance
it, decrement the depth. -/
def q_message_dequeue (total : Nat) (store : Nat → QMsg) (qcb : Q_QCB) :
    Nat × Option QMsg × Q_QCB :=
  if qBufferEmpty qcb then (errNOMSG, none, qcb)
  else if qcb.buf.nextout ≥ total then (errNOMGB, none, qcb)
  else
    (0, some (store qcb.buf.nextout),
      { qcb with buf := { qcb.buf with nextout := qAdvanceIndex qcb.buf qcb.buf.nextout },
                 current_messages := qcb.current_messages - 1 })

/-- `q_hw_generic_broadcast_message` (queue_hw_generic.c:294-321), the
branch `q_broadcast` (queue.c:635-636) executes in the default build:
both HAL operation tables define `broadcast_message`, so the dispatch
always takes the HAL path.  "Generic implementation: just send one
message": the message is enqueued like a normal send; on success
`*count` is set to `active_waits > 0 ? 1 : 0` — `active_waits` being the
HAL state's count of tasks currently blocked in `q_hw_wait_condition` —
and all waiters are signalled; on enqueue failure `*count` is 0.
Result: (error, count, store, qcb). -/
def q_hw_generic_broadcast_message (total : Nat) (store : Nat → QMsg)
    (qcb : Q_QCB) (msg : QMsg) (active_waits : Nat) :
    Nat × Nat × (Nat → QMsg) × Q_QCB :=
  let r := q_message_enqueue total store qcb msg false
  if r.1 = 0 then (0, if active_waits > 0 then 1 else 0, r.2.1, r.2.2)
  else (r.1, 0, r.2.1, r.2.2)

/-- The ring effect of `q_send` (queue.c:847): both the software branch
and the generic HAL `send_message` (queue_hw_generic.c:205) perform
`q_message_enqueue(qcb, msg, 0)` and then signal the queue's
semaphore. -/
def q_send_ring (total : Nat) (store : Nat → QMsg) (qcb : Q_QCB) (msg : QMsg) :
    Nat × (Nat → QMsg) × Q_QCB :=
  q_message_enqueue total store qcb msg false

/-- The `i`-th of a family of pairwise distinct test messages. -/
def msgI (i : Nat) : QMsg := ⟨i, 0, 0, 0⟩

/-- `n` consecutive `q_send` calls delivering `msgI 0, …, msgI (n - 1)`:
the list of their return codes together with the final arena storage and
ring state. -/
def qSendUpTo (total : Nat) (store : Nat → QMsg) (qcb : Q_QCB) :
    Nat → List Nat × (Nat → QMsg) × Q_QCB
  | 0 => ([], store, qcb)
  | n + 1 =>
    let r := qSendUpTo total store qcb n
    let e := q_send_ring total r.2.1 r.2.2 (msgI n)
    (r.1 ++ [e.1], e.2.1, e.2.2)

/-- The ring part of a queue as initialised by `q_create`
(queue.c:700-711): region `[bstart, bstart + count - 1]`, both cursors at
`bstart`, empty. -/
def qFresh (bstart count : Nat) : Q_QCB :=
  { buf := { bstart := bstart, bend := bstart + count - 1,
             nextin := bstart, nextout := bstart },
    count := count, current_messages := 0, high_water_mark := 0 }

/-- `Q_IS_VALID_COUNT(count)` (queue.h:170) via `q_validate_count`
(queue.c:443). -/
def q_validate_count (count : Nat) : Nat :=
  if Q_MIN_COUNT ≤ count ∧ count ≤ Q_MAX_COUNT then 0 else errBADPARAM

/-- `Q_IS_VALID_FLAGS(flags)` (queue.h:171) via `q_validate_flags`. -/
def q_validate_flags (flags : Nat) : Nat :=
  if flags &&& complement32 (Q_FIFO ||| Q_PRIOR ||| Q_GLOBAL ||| Q_LOCAL ||| Q_PRIBUF) = 0
  then 0 else errBADPARAM

/-- Kernel-side state consulted by `q_create`: the buffer arena, the number
of free QCBs in the queue pool (`q_pool_alloc` fails with `NULL` when the
free list is empty), and the number of free semaphore control blocks
(`q_sync_create` calls `sm_create` with flags `SM_LOCAL | SM_FIFO = 0` and
count 0, which can only fail with `ERR_NOSCB` when the semaphore pool is
exhausted). -/
structure Q_SYS where
  bufPool : Q_BUFFER_POOL
  qcbFree : Nat
  semFree : Nat
deriving Repr, DecidableEq

/-- `q_create` (queue.c:657): validate `count` then `flags`; check arena
availability; allocate a QCB; reserve `count` arena slots; initialise the
ring; create the sync semaphore (releasing the QCB and slots on failure;
the generic HAL `create_queue` always succeeds).  Returns the error code,
the updated state, and the created ring on success.  The `qid == NULL`
check and `q_init_once` are outside this embedding. -/
def q_create (st : Q_SYS) (count flags : Nat) : Nat × Q_SYS × Option Q_QCB :=
  if q_validate_count count ≠ 0 then (q_validate_count count, st, none)
  else if q_validate_flags flags ≠ 0 then (q_validate_flags flags, st, none)
  else if q_buffer_available st.bufPool < count then (errNOMGB, st, none)
  else if st.qcbFree = 0 then (errNOQCB, st, none)
  else
    let st1 := { st with qcbFree := st.qcbFree - 1 }
    let r := q_buffer_alloc st1.bufPool count
    if r.1 ≥ Q_MAX_BUFFERS then
      (errNOMGB, { st1 with bufPool := r.2, qcbFree := st1.qcbFree + 1 }, none)
    else if st1.semFree = 0 then
      let f := q_buffer_free r.2 r.1 count
      (errNOSCB, { st1 with bufPool := f.2, qcbFree := st1.qcbFree + 1 }, none)
    else
      (0, { st1 with bufPool := r.2, semFree := st1.semFree - 1 }, some (qFresh r.1 count))

/-! ## Semaphores (src/kernel/ipc/semaphore.c, semaphore.h,
semaphore_hw_generic.c, and the legacy src/gxkSem.c)

Flag values from `gxkernel.h` (the `#ifndef` fallbacks in `semaphore.h`
are unused): `SM_NOWAIT=0x01`, `SM_PRIOR=0x02`, `SM_WAIT=SM_FIFO=0`.
`current_count` is a signed `LONG`, embedded as `Int`;
`maximum_count` is a `ULONG` cast to `LONG` at the comparison. -/

def SM_NOWAIT : Nat := 0x01
def SM_WAIT : Nat := 0x00

def SM_STATE_ACTIVE : Nat := 1

def SM_INFINITE_TIMEOUT : Nat := 0xFFFFFFFF

structure SM_SCB where
  state : Nat
  current_count : Int
  maximum_count : Nat
  wait_queue : List Nat
  wait_count : Nat
deriving Repr, DecidableEq

/-- `sm_increment_count` (semaphore.c:327): `ERR_SEMFULL` when
`current_count >= (LONG)maximum_count`, else increment. -/
def sm_increment_count (scb : SM_SCB) : Nat × SM_SCB :=
  if scb.current_count ≥ (scb.maximum_count : Int) then (errSEMFULL, scb)
  else (0, { scb with current_count := scb.current_count + 1 })

/-- `sm_wait_queue_get_next` (semaphore.c:275): pop the head of the wait
queue (0 when empty). -/
def sm_wait_queue_get_next (scb : SM_SCB) : Nat × SM_SCB :=
  match scb.wait_queue with
  | [] => (0, scb)
  | t :: rest => (t, { scb with wait_queue := rest, wait_count := scb.wait_count - 1 })

/-- `sm_v` (semaphore.c:666), body after the pool lookup and the
`state == SM_STATE_ACTIVE` check: with waiters, wake the head of the wait
queue and leave the count unchanged (the hardware signal is elided);
with no waiters, `sm_increment_count`, propagating its error. -/
def sm_v_body (scb : SM_SCB) : Nat × SM_SCB :=
  if scb.wait_count > 0 then
    let r := sm_wait_queue_get_next scb
    (0, r.2)
  else
    let r := sm_increment_count scb
    if r.1 ≠ 0 then (r.1, r.2) else (0, r.2)

/-- Outcome of a HAL-level blocking wait: a synchronous return with a code,
or an unbounded block (POSIX `sem_wait` on a semaphore that is never
posted). -/
inductive HwWaitOutcome where
  | ret (code : Nat)
  | blocksForever
deriving Repr, DecidableEq

/-- POSIX `sem_timedwait` abstraction: `postTimeMs` is the instant (ms) at
which the semaphore is first posted (`none` = never); the wait succeeds
iff the semaphore is posted no later than the absolute deadline, else it
fails with `ETIMEDOUT`. -/
def semTimedWaitOk (postTimeMs : Option Nat) (deadlineMs : Nat) : Bool :=
  match postTimeMs with
  | some t => t ≤ deadlineMs
  | none => false

/-- `sm_hw_generic_wait_semaphore` (semaphore_hw_generic.c:119): only
`timeout == SM_INFINITE_TIMEOUT (0xFFFFFFFF)` selects the indefinite
`sem_wait`; every other value — including 0 — goes to `sem_timedwait`
with the absolute deadline `now + timeout/100 s + (timeout%100)*10 ms`
(i.e. `now + 10*timeout` ms), returning `ERR_TIMEOUT` on expiry.  The
shadow `current_count` bookkeeping after a successful wait is elided. -/
def sm_hw_generic_wait_semaphore (timeout nowMs : Nat) (postTimeMs : Option Nat) :
    HwWaitOutcome :=
  if timeout = SM_INFINITE_TIMEOUT then
    match postTimeMs with
    | some _ => .ret 0
    | none => .blocksForever
  else
    if semTimedWaitOk postTimeMs (nowMs + (timeout / 100) * 1000 + (timeout % 100) * 10)
    then .ret 0
    else .ret errTIMEOUT

/-- The Windows `INFINITE` wait constant used by the legacy gxkSem.c. -/
def winINFINITE : Nat := 0xFFFFFFFF

/-- The legacy `sm_p` timeout mapping (gxkSem.c:252-253):
`msecTout = (flags & SM_NOWAIT) ? 0 : (timeout * 10);`
`msecTout = msecTout ? msecTout : INFINITE;` — so a waiting `sm_p`
with `timeout == 0` waits with `INFINITE`. -/
def gxkSemP_msecTout (flags timeout : Nat) : Nat :=
  let m := if flags &&& SM_NOWAIT ≠ 0 then 0 else timeout * 10
  if m ≠ 0 then m else winINFINITE

/-! ## Task mode (src/kernel/sched/task.c t_mode, gxkernel.h flags)

Mode-flag values from `gxkernel.h`: the "enabled" companions
`T_PREEMPT`, `T_ASR`, `T_ISR` are all 0. -/

def T_NOPREEMPT : Nat := 0x001
def T_PREEMPT : Nat := 0x000
def T_TSLICE : Nat := 0x002
def T_NOASR : Nat := 0x004
def T_ASR : Nat := 0x000
def T_NOISR : Nat := 0x100
def T_ISR : Nat := 0x000

/-- `T_MODE_SET(tcb, mask)` (task.h:231). -/
def tModeSet (mode mask : Nat) : Nat := mode ||| mask

/-- `T_MODE_CLEAR(tcb, mask)` (task.h:232). -/
def tModeClear (mode mask : Nat) : Nat := mode &&& complement32 mask

/-- The mode update performed by `t_mode` (task.c:756-787), transcribed
branch for branch: each group is guarded by `mask & T_PREEMPT`,
`mask & T_TSLICE`, `mask & T_ASR`, `mask & T_ISR` respectively. -/
def t_mode_update (mode mask new_mode : Nat) : Nat :=
  let m1 :=
    if mask &&& T_PREEMPT ≠ 0 then
      if new_mode &&& T_PREEMPT ≠ 0 then tModeClear mode T_NOPREEMPT
      else tModeSet mode T_NOPREEMPT
    else mode
  let m2 :=
    if mask &&& T_TSLICE ≠ 0 then
      if new_mode &&& T_TSLICE ≠ 0 then tModeSet m1 T_TSLICE
      else tModeClear m1 T_TSLICE
    else m1
  let m3 :=
    if mask &&& T_ASR ≠ 0 then
      if new_mode &&& T_ASR ≠ 0 then tModeSet m2 T_ASR
      else tModeClear m2 T_ASR
    else m2
  if mask &&& T_ISR ≠ 0 then
    if new_mode &&& T_ISR ≠ 0 then tModeSet m3 T_ISR
    else tModeClear m3 T_ISR
  else m3

/-- `t_mode` (task.c:741): `ERR_NOTACTIVE` with nothing written when there
is no current task; otherwise the previous mode goes to `*old_mode`, the
update runs, and 0 is returned.  Result: (return code, value written to
`*old_mode`, updated current-task mode). -/
def t_mode (curMode : Option Nat) (mask new_mode : Nat) : Nat × Option Nat × Option Nat :=
  match curMode with
  | none => (errNOTACTIVE, none, none)
  | some m => (0, some m, some (t_mode_update m mask new_mode))

/-! ## Timers (src/kernel/time/timer.c, timer.h)

The single active-timer list, sorted by absolute expiration tick.  The
intrusive doubly-linked list is embedded as a `List` in link order.  Timer
fields not consulted by the list discipline (action, task id, events) are
omitted. -/

inductive TmType where
  | oneshot
  | periodic
  | absolute
deriving Repr, DecidableEq

structure TM_TCB where
  timer_id : Nat
  ttype : TmType
  expire_ticks : Nat
  period_ticks : Nat
deriving Repr, DecidableEq

/-- `tm_list_insert` (timer.c:143): walk past every timer whose
`expire_ticks` is `<=` the new timer's and link the new timer there. -/
def tm_list_insert (t : TM_TCB) : List TM_TCB → List TM_TCB
  | [] => [t]
  | c :: rest =>
    if c.expire_ticks ≤ t.expire_ticks then c :: tm_list_insert t rest
    else t :: c :: rest

/-- The list effect of `tm_cancel` (timer.c:478): `tm_pool_find` locates
the first active timer with the given id (no change when absent) and
`tm_pool_free` unlinks it via `tm_list_remove`. -/
def tm_cancel_list (tmid : Nat) (l : List TM_TCB) : List TM_TCB :=
  l.eraseP (fun t => t.timer_id = tmid)

/-- The `tm_process_expired` loop (timer.c:298): while the list head has
expired (`tm_list_get_expired` checks only the head), fire it; a periodic
timer has its expiration advanced by its period and is re-inserted in
sorted order, a one-shot is unlinked and freed.  The loop is unrolled on
explicit fuel; in the source the loop terminates because timer periods are
validated nonzero (`tm_validate_inputs`), so every run of the C loop is
covered by a sufficiently large fuel. -/
def tm_process_expired_loop (now : Nat) : Nat → List TM_TCB → List TM_TCB
  | 0, l => l
  | fuel + 1, l =>
    match l with
    | [] => []
    | t :: rest =>
      if t.expire_ticks ≤ now then
        if t.ttype = TmType.periodic then
          tm_process_expired_loop now fuel
            (tm_list_insert { t with expire_ticks := t.expire_ticks + t.period_ticks } rest)
        else
          tm_process_expired_loop now fuel rest
      else t :: rest

/-- The key order of the active timer list: non-decreasing
`expire_ticks`. -/
def tmKeyLe (a b : TM_TCB) : Prop := a.expire_ticks ≤ b.expire_ticks

instance : IsTrans TM_TCB tmKeyLe := ⟨fun _ _ _ hab hbc => Nat.le_trans hab hbc⟩

instance (a b : TM_TCB) : Decidable (tmKeyLe a b) :=
  inferInstanceAs (Decidable (a.expire_ticks ≤ b.expire_ticks))

/-- The sortedness the specification asserts of the active list:
expiration ticks are non-decreasing from head to tail. -/
def tmSortedB : List TM_TCB → Bool
  | [] => true
  | [_] => true
  | a :: b :: rest => decide (a.expire_ticks ≤ b.expire_ticks) && tmSortedB (b :: rest)

/-- States of the active timer list reachable from kernel initialisation
by the timer operations: timer creation (`tm_evafter` / `tm_evevery` /
`tm_evwhen` / `tm_wkafter` / `tm_wkwhen` all funnel through
`tm_create_timer`, which links the new timer with `tm_list_insert`),
cancellation, and tick processing (`tm_tick` → `tm_process_expired`). -/
inductive TmReach : List TM_TCB → Prop where
  | init : TmReach []
  | create (t : TM_TCB) {l : List TM_TCB} : TmReach l → TmReach (tm_list_insert t l)
  | cancel (tmid : Nat) {l : List TM_TCB} : TmReach l → TmReach (tm_cancel_list tmid l)
  | tick (now fuel : Nat) {l : List TM_TCB} :
      TmReach l → TmReach (tm_process_expired_loop now fuel l)

/-! ## Theorems -/

/-- C1: evaluation of the code at the failing input for the claim that a
wake condition already satisfied by pending events makes `ev_receive`
consume the bits and return 0 immediately (never `NoEvents`, even under
`EV_NOWAIT`).  After `ev_send` posts `0x3` to a task that is not waiting
(state stays `EV_STATE_FREE`), the pending events satisfy both the
`EV_ALL` and the `EV_ANY` condition for mask `0x3`, yet
`ev_receive(0x3, …|EV_NOWAIT)` returns `ERR_NOEVS` with `*events_r = 0`
and the pending bits unconsumed: `ev_check_conditions` reports
satisfaction only in `EV_STATE_WAITING`, a state `ev_receive` never
establishes before checking. -/
theorem c1_ev_receive_immediate_path_dead :
    (ev_send_ecb evPoolInitEcb 0x3).pending_events &&& 0x3 = 0x3 ∧
    (ev_send_ecb evPoolInitEcb 0x3).state = EV_STATE_FREE ∧
    ev_receive (ev_send_ecb evPoolInitEcb 0x3) 0x3 EV_NOWAIT 0 =
      .ret errNOEVS (some 0)
        { evPoolInitEcb with pending_events := 0x3, waiting_events := 0x3,
                             wait_condition := EV_ALL } ∧
    ev_receive (ev_send_ecb evPoolInitEcb 0x3) 0x3 (EV_ANY ||| EV_NOWAIT) 0 =
      .ret errNOEVS (some 0)
        { evPoolInitEcb with pending_events := 0x3, waiting_events := 0x3,
                             wait_condition := EV_ANY } ∧
    errNOEVS ≠ 0 := by
  decide

/-- C2 counterexample: making task 1 and then task 2 ready at priority 10
from an empty scheduler leaves the level-10 list as `[2, 1]` — the
newcomer at the head, not the claimed tail — and
`t_scheduler_get_highest_ready` picks task 2, the task that became ready
last, not the claimed earliest-ready task 1. -/
theorem c2_add_ready_lifo_counterexample :
    (t_scheduler_add_ready (t_scheduler_add_ready tSchedulerInit 10 1 T_STATE_READY)
        10 2 T_STATE_READY).ready_lists.getD 10 [] = [2, 1] ∧
    t_scheduler_get_highest_ready
        (t_scheduler_add_ready (t_scheduler_add_ready tSchedulerInit 10 1 T_STATE_READY)
          10 2 T_STATE_READY) = some 2 ∧
    some 2 ≠ some 1 := by
  decide

/-- C3 counterexample: on a freshly created queue of capacity 4 with no
blocked receiver (`active_waits = 0`), `q_broadcast` returns 0 and does
set `*count = 0`, but the message is enqueued into the ring — depth
becomes 1, `nextin` advances, slot 0 holds the message — not dropped as
the claim requires; and with two receivers blocked (`active_waits = 2`)
`*count` is 1, not the claimed number of tasks awakened. -/
theorem c3_broadcast_enqueues_counterexample :
    (q_hw_generic_broadcast_message 2048 (fun _ => msgI 0) (qFresh 0 4) (msgI 7) 0).1 = 0 ∧
    (q_hw_generic_broadcast_message 2048 (fun _ => msgI 0) (qFresh 0 4) (msgI 7) 0).2.1 = 0 ∧
    (q_hw_generic_broadcast_message 2048 (fun _ => msgI 0) (qFresh 0 4)
        (msgI 7) 0).2.2.2.current_messages = 1 ∧
    (q_hw_generic_broadcast_message 2048 (fun _ => msgI 0) (qFresh 0 4)
        (msgI 7) 0).2.2.2.buf.nextin = 1 ∧
    (q_hw_generic_broadcast_message 2048 (fun _ => msgI 0) (qFresh 0 4) (msgI 7) 0).2.2.1 0 =
      msgI 7 ∧
    (q_hw_generic_broadcast_message 2048 (fun _ => msgI 0) (qFresh 0 4) (msgI 7) 2).2.1 = 1 ∧
    (1 : Nat) ≠ 2 := by
  refine ⟨rfl, rfl, rfl, rfl, rfl, rfl, by decide⟩

/-- C3 (amended): whenever its ring is not full and the input slot is in
range, `q_broadcast` (through the generic HAL branch it always takes)
enqueues the message exactly like a `q_send` — it stores the message at
`nextin`, advances the ring and returns 0 — so the broadcast message is
enqueued, never dropped, also when no task is waiting; `*count` is set to
1 when some receiver is blocked (`active_waits > 0`) and to 0 otherwise, a
0/1 indicator rather than the number of tasks awakened. -/
theorem c3_broadcast_is_enqueue (total : Nat) (store : Nat → QMsg) (qcb : Q_QCB)
    (msg : QMsg) (active_waits : Nat)
    (hfull : qBufferFull qcb = false) (hin : qcb.buf.nextin < total) :
    q_hw_generic_broadcast_message total store qcb msg active_waits =
      (0, if active_waits > 0 then 1 else 0,
        fun i => if i = qcb.buf.nextin then msg else store i,
        { qcb with
            buf := { qcb.buf with nextin := qAdvanceIndex qcb.buf qcb.buf.nextin },
            current_messages := qcb.current_messages + 1,
            high_water_mark :=
              if qcb.current_messages + 1 > qcb.high_water_mark then
                qcb.current_messages + 1
              else qcb.high_water_mark }) := by
  unfold q_hw_generic_broadcast_message q_message_enqueue
  rw [hfull]
  simp only [Bool.false_eq_true, if_false, if_neg (Nat.not_le.2 hin)]
  simp

/-- Witness for C3 (amended) at a fresh queue of capacity 4 with no
blocked receiver. -/
theorem c3_broadcast_is_enqueue_witness :
    q_hw_generic_broadcast_message 2048 (fun _ => msgI 0) (qFresh 0 4) (msgI 7) 0 =
      (0, if (0 : Nat) > 0 then 1 else 0,
        fun i => if i = (qFresh 0 4).buf.nextin then msgI 7 else msgI 0,
        { qFresh 0 4 with
            buf := { (qFresh 0 4).buf with
                       nextin := qAdvanceIndex (qFresh 0 4).buf (qFresh 0 4).buf.nextin },
            current_messages := (qFresh 0 4).current_messages + 1,
            high_water_mark :=
              if (qFresh 0 4).current_messages + 1 > (qFresh 0 4).high_water_mark then
                (qFresh 0 4).current_messages + 1
              else (qFresh 0 4).high_water_mark }) :=
  c3_broadcast_is_enqueue 2048 (fun _ => msgI 0) (qFresh 0 4) (msgI 7) 0
    (by decide) (by decide)

/-- C4 counterexample: on an active semaphore whose count already equals
its ceiling (8, the default for FIFO semaphores) and with no waiting
tasks, `sm_v` returns `ERR_SEMFULL` — a nonzero error — to the external
caller, not the claimed success. -/
theorem c4_sm_v_at_ceiling_counterexample :
    sm_v_body { state := SM_STATE_ACTIVE, current_count := 8, maximum_count := 8,
                wait_queue := [], wait_count := 0 } =
      (errSEMFULL,
        { state := SM_STATE_ACTIVE, current_count := 8, maximum_count := 8,
          wait_queue := [], wait_count := 0 }) ∧
    errSEMFULL ≠ 0 := by
  decide

/-- C4 (amended): for an active semaphore with no waiting tasks, `sm_v`
increments the count and returns 0 when the count is strictly below the
ceiling; when the count has reached the ceiling it leaves the count
unchanged and returns `ERR_SEMFULL` to the external caller (the internal
`sm_increment_count` error is propagated, not converted to success). -/
theorem c4_sm_v_no_waiters (scb : SM_SCB) (hw : scb.wait_count = 0) :
    sm_v_body scb =
      if scb.current_count < (scb.maximum_count : Int) then
        (0, { scb with current_count := scb.current_count + 1 })
      else (errSEMFULL, scb) := by
  unfold sm_v_body sm_increment_count
  rw [if_neg (by omega : ¬ scb.wait_count > 0)]
  by_cases hc : scb.current_count ≥ (scb.maximum_count : Int)
  · rw [if_pos hc, if_neg (by omega : ¬ scb.current_count < (scb.maximum_count : Int))]
    simp [errSEMFULL]
  · rw [if_neg hc, if_pos (by omega : scb.current_count < (scb.maximum_count : Int))]
    simp

/-- Witness for C4 (amended) at count 3 below ceiling 8. -/
theorem c4_sm_v_no_waiters_witness :
    sm_v_body { state := SM_STATE_ACTIVE, current_count := 3, maximum_count := 8,
                wait_queue := [], wait_count := 0 } =
      if (3 : Int) < ((8 : Nat) : Int) then
        (0, { state := SM_STATE_ACTIVE, current_count := 3 + 1, maximum_count := 8,
              wait_queue := [], wait_count := 0 })
      else (errSEMFULL,
        { state := SM_STATE_ACTIVE, current_count := 3, maximum_count := 8,
          wait_queue := [], wait_count := 0 }) :=
  c4_sm_v_no_waiters
    { state := SM_STATE_ACTIVE, current_count := 3, maximum_count := 8,
      wait_queue := [], wait_count := 0 } rfl

/-- C5: evaluation of the code at the failing inputs for the claim that
`t_mode` gives every masked mode bit the value of the corresponding bit of
`new_mode`.  Because the guards test `mask & T_PREEMPT`, `mask & T_ASR`
and `mask & T_ISR` with `T_PREEMPT = T_ASR = T_ISR = 0`, those three
branches are unreachable: selecting `T_NOPREEMPT`, `T_NOASR` or `T_NOISR`
in the mask changes nothing (the bits neither set nor clear), while the
`T_TSLICE` branch does implement the claimed set-and-clear semantics.
`t_mode` still returns 0 and reports the previous mode. -/
theorem c5_t_mode_nopreempt_branch_dead :
    t_mode (some 0) T_NOPREEMPT T_NOPREEMPT = (0, some 0, some 0) ∧
    t_mode (some T_NOPREEMPT) T_NOPREEMPT 0 = (0, some T_NOPREEMPT, some T_NOPREEMPT) ∧
    t_mode (some 0) T_NOASR T_NOASR = (0, some 0, some 0) ∧
    t_mode (some 0) T_NOISR T_NOISR = (0, some 0, some 0) ∧
    t_mode (some 0) T_TSLICE T_TSLICE = (0, some 0, some T_TSLICE) ∧
    t_mode (some T_TSLICE) T_TSLICE 0 = (0, some T_TSLICE, some 0) := by
  decide

/-- C7: evaluation of the modern semaphore HAL at the failing input for
the claim that `timeout = 0` on a waiting call means "wait forever".
`sm_hw_generic_wait_semaphore` reserves the indefinite wait for
`timeout = 0xFFFFFFFF` only; a waiting `sm_p` with `timeout = 0` on a
semaphore that is never posted goes to `sem_timedwait` with the absolute
deadline `now + 0` and returns `ERR_TIMEOUT (0x01)` immediately.  The
legacy host path (gxkSem.c) by contrast maps a waiting `timeout = 0` to
the `INFINITE` wait, which is the behaviour the specification
preserves. -/
theorem c7_timeout_zero_returns_timeout (nowMs : Nat) :
    sm_hw_generic_wait_semaphore 0 nowMs none = .ret errTIMEOUT ∧
    errTIMEOUT = 0x01 ∧
    gxkSemP_msecTout SM_WAIT 0 = winINFINITE := by
  exact ⟨rfl, rfl, rfl⟩

/-- C8 counterexample: from the freshly initialised arena, `q_create`-style
reservation of 4 slots followed by the matching `q_buffer_free` leaves
only 2044 slots available to later `q_create` calls instead of restoring
the prior 2048: `q_buffer_free` decrements the `buffers_allocated`
statistic but never moves `next_available` back. -/
theorem c8_arena_not_restored_counterexample :
    (q_buffer_free (q_buffer_alloc qBufferPoolInit 4).2
        (q_buffer_alloc qBufferPoolInit 4).1 4).1 = 0 ∧
    q_buffer_available
        (q_buffer_free (q_buffer_alloc qBufferPoolInit 4).2
          (q_buffer_alloc qBufferPoolInit 4).1 4).2 = 2044 ∧
    q_buffer_available qBufferPoolInit = 2048 ∧
    (2044 : Nat) ≠ 2048 := by
  decide

/-- C8 (amended): a successful `q_buffer_alloc` of `count` slots followed
by the matching `q_buffer_free` restores the `buffers_allocated` counter
but permanently consumes the slots: `next_available` stays advanced by
`count`, so the arena capacity available to later `q_create` calls shrinks
by `count` with every create/delete cycle (the free routine is a
bump-pointer stub that reclaims nothing). -/
theorem c8_alloc_free_consumes_arena (pool : Q_BUFFER_POOL) (count : Nat)
    (hc : count ≠ 0) (hfit : pool.next_available + count ≤ pool.total_buffers) :
    (q_buffer_free (q_buffer_alloc pool count).2 (q_buffer_alloc pool count).1 count).1 = 0 ∧
    (q_buffer_free (q_buffer_alloc pool count).2
        (q_buffer_alloc pool count).1 count).2.buffers_allocated = pool.buffers_allocated ∧
    (q_buffer_free (q_buffer_alloc pool count).2
        (q_buffer_alloc pool count).1 count).2.next_available =
      pool.next_available + count ∧
    q_buffer_available
        (q_buffer_free (q_buffer_alloc pool count).2
          (q_buffer_alloc pool count).1 count).2 + count =
      q_buffer_available pool := by
  unfold q_buffer_alloc q_buffer_free q_buffer_available
  rw [if_neg (by omega : ¬ (count = 0 ∨ pool.next_available + count > pool.total_buffers))]
  simp only
  rw [if_neg (by omega : ¬ (pool.next_available ≥ pool.total_buffers ∨ count = 0))]
  refine ⟨rfl, ?_, rfl, ?_⟩
  · show pool.buffers_allocated + count - count = pool.buffers_allocated
    omega
  · show pool.total_buffers - (pool.next_available + count) + count =
      pool.total_buffers - pool.next_available
    omega

/-- Witness for C8 (amended) at the fresh arena with `count = 4`. -/
theorem c8_alloc_free_consumes_arena_witness :
    (q_buffer_free (q_buffer_alloc qBufferPoolInit 4).2
        (q_buffer_alloc qBufferPoolInit 4).1 4).1 = 0 ∧
    (q_buffer_free (q_buffer_alloc qBufferPoolInit 4).2
        (q_buffer_alloc qBufferPoolInit 4).1 4).2.buffers_allocated =
      qBufferPoolInit.buffers_allocated ∧
    (q_buffer_free (q_buffer_alloc qBufferPoolInit 4).2
        (q_buffer_alloc qBufferPoolInit 4).1 4).2.next_available =
      qBufferPoolInit.next_available + 4 ∧
    q_buffer_available
        (q_buffer_free (q_buffer_alloc qBufferPoolInit 4).2
          (q_buffer_alloc qBufferPoolInit 4).1 4).2 + 4 =
      q_buffer_available qBufferPoolInit :=
  c8_alloc_free_consumes_arena qBufferPoolInit 4 (by decide) (by decide)

/-- C10: `q_create` validates the requested capacity against
`Q_IS_VALID_COUNT` — the range `[Q_MIN_COUNT, Q_MAX_COUNT] = [4, 1024]` —
before touching the queue pool or the buffer arena: for every capacity
below 4 or above 1024 it returns the nonzero validation error
`ERR_BADPARAM`, leaves the whole queue-system state unchanged, and
allocates no queue, regardless of how much pool and arena space is
free. -/
theorem c10_q_create_rejects_bad_capacity (st : Q_SYS) (count flags : Nat)
    (h : count < Q_MIN_COUNT ∨ Q_MAX_COUNT < count) :
    q_create st count flags = (errBADPARAM, st, none) ∧ errBADPARAM ≠ 0 := by
  have hv : q_validate_count count = errBADPARAM := by
    unfold q_validate_count
    rw [if_neg]
    unfold Q_MIN_COUNT Q_MAX_COUNT at h ⊢
    omega
  refine ⟨?_, by decide⟩
  unfold q_create
  rw [hv, if_pos (by decide : errBADPARAM ≠ 0)]

/-- Witness for C10 at capacity 2 with an otherwise empty, fully free
system. -/
theorem c10_q_create_rejects_bad_capacity_witness :
    ((2 : Nat) < Q_MIN_COUNT ∨ Q_MAX_COUNT < 2) ∧
    (q_create { bufPool := qBufferPoolInit, qcbFree := 32, semFree := 64 } 2 0 =
        (errBADPARAM, { bufPool := qBufferPoolInit, qcbFree := 32, semFree := 64 }, none) ∧
      errBADPARAM ≠ 0) :=
  ⟨Or.inl (by decide),
    c10_q_create_rejects_bad_capacity
      { bufPool := qBufferPoolInit, qcbFree := 32, semFree := 64 } 2 0 (Or.inl (by decide))⟩

/-- Priority indices are clamped to `T_MAX_PRIORITY`. -/
theorem tPriorityToIndex_le (pri : Nat) : tPriorityToIndex pri ≤ T_MAX_PRIORITY := by
  unfold tPriorityToIndex
  split
  · assumption
  · exact Nat.le_refl _

/-- A fueled trailing-zero count computes the position of the lowest set
bit when the fuel exceeds that position. -/
theorem ctzAux_eq_of_testBit :
    ∀ (idx fuel n : Nat), idx < fuel → (∀ j, j < idx → n.testBit j = false) →
      n.testBit idx = true → ctzAux fuel n = idx := by
  intro idx
  induction idx with
  | zero =>
    intro fuel n hf hlow hbit
    match fuel, hf with
    | f + 1, _ =>
      unfold ctzAux
      rw [Nat.testBit_zero] at hbit
      rw [if_pos (of_decide_eq_true hbit)]
  | succ i ih =>
    intro fuel n hf hlow hbit
    match fuel, hf with
    | f + 1, hf =>
      have h0 : n % 2 = 0 := by
        have h := hlow 0 (Nat.succ_pos i)
        rw [Nat.testBit_zero] at h
        have := of_decide_eq_false h
        omega
      unfold ctzAux
      rw [if_neg (by omega)]
      have hrec : ctzAux f (n / 2) = i := by
        refine ih f (n / 2) (by omega) (fun j hj => ?_) ?_
        · have h := hlow (j + 1) (by omega)
          rwa [Nat.testBit_succ] at h
        · rw [← Nat.testBit_succ]
          exact hbit
      omega

/-- C2 (amended): `t_scheduler_add_ready` inserts a newly ready task at
the HEAD of its priority level's list, so among equal-priority tasks the
list runs newest-first; consequently, when no higher-priority (lower
numbered) level is marked ready, `t_scheduler_get_highest_ready` selects
the task that became ready most recently — LIFO among equals, not the
claimed round-robin/FIFO. -/
theorem c2_add_ready_head_lifo (s : T_SCHEDULER) (pri tid : Nat)
    (hlen : s.ready_lists.length = T_MAX_PRIORITY + 1)
    (hlow : ∀ j, j < tPriorityToIndex pri → s.ready_mask.testBit j = false) :
    (t_scheduler_add_ready s pri tid T_STATE_READY).ready_lists.getD
        (tPriorityToIndex pri) [] =
      tid :: s.ready_lists.getD (tPriorityToIndex pri) [] ∧
    t_scheduler_get_highest_ready (t_scheduler_add_ready s pri tid T_STATE_READY) =
      some tid := by
  have hidx : tPriorityToIndex pri < s.ready_lists.length := by
    rw [hlen]
    exact Nat.lt_succ_of_le (tPriorityToIndex_le pri)
  have hset :
      (t_scheduler_add_ready s pri tid T_STATE_READY).ready_lists =
        s.ready_lists.set (tPriorityToIndex pri)
          (tid :: s.ready_lists.getD (tPriorityToIndex pri) []) := by
    unfold t_scheduler_add_ready
    rw [if_neg (by decide : ¬ T_STATE_READY ≠ T_STATE_READY)]
  have hmask :
      (t_scheduler_add_ready s pri tid T_STATE_READY).ready_mask =
        s.ready_mask ||| (1 <<< tPriorityToIndex pri) := by
    unfold t_scheduler_add_ready
    rw [if_neg (by decide : ¬ T_STATE_READY ≠ T_STATE_READY)]
  have hshift : (1 <<< tPriorityToIndex pri) = 2 ^ tPriorityToIndex pri := by
    rw [Nat.shiftLeft_eq, Nat.one_mul]
  have hbit : (s.ready_mask ||| (1 <<< tPriorityToIndex pri)).testBit
      (tPriorityToIndex pri) = true := by
    rw [Nat.testBit_lor, hshift, Nat.testBit_two_pow_self, Bool.or_true]
  have hbitlow : ∀ j, j < tPriorityToIndex pri →
      (s.ready_mask ||| (1 <<< tPriorityToIndex pri)).testBit j = false := by
    intro j hj
    rw [Nat.testBit_lor, hlow j hj, hshift,
      Nat.testBit_two_pow_of_ne (by omega : tPriorityToIndex pri ≠ j)]
    rfl
  have hne : s.ready_mask ||| (1 <<< tPriorityToIndex pri) ≠ 0 := by
    intro h0
    have := hbit
    rw [h0, Nat.zero_testBit] at this
    exact Bool.false_ne_true this
  have hgetD :
      (s.ready_lists.set (tPriorityToIndex pri)
          (tid :: s.ready_lists.getD (tPriorityToIndex pri) [])).getD
        (tPriorityToIndex pri) [] =
      tid :: s.ready_lists.getD (tPriorityToIndex pri) [] := by
    rw [List.getD_eq_getElem?_getD, List.getElem?_set_self hidx]
    rfl
  refine ⟨by rw [hset]; exact hgetD, ?_⟩
  unfold t_scheduler_get_highest_ready tFindHighestPriority
  rw [hmask, hset, if_neg hne,
    ctzAux_eq_of_testBit (tPriorityToIndex pri) 256 _
      (by have := tPriorityToIndex_le pri; unfold T_MAX_PRIORITY at this; omega)
      hbitlow hbit,
    hgetD]
  rfl

/-- Witness for C2 (amended): task 7 made ready at priority 10 in the
empty scheduler heads its level list and is the next task chosen. -/
theorem c2_add_ready_head_lifo_witness :
    (t_scheduler_add_ready tSchedulerInit 10 7 T_STATE_READY).ready_lists.getD
        (tPriorityToIndex 10) [] =
      7 :: tSchedulerInit.ready_lists.getD (tPriorityToIndex 10) [] ∧
    t_scheduler_get_highest_ready (t_scheduler_add_ready tSchedulerInit 10 7 T_STATE_READY) =
      some 7 :=
  c2_add_ready_head_lifo tSchedulerInit 10 7
    (by simp [tSchedulerInit]) (fun j _ => Nat.zero_testBit j)

/-- The boolean sortedness check agrees with `List.Chain'` of the key
order. -/
theorem tmSortedB_iff_chain (l : List TM_TCB) :
    tmSortedB l = true ↔ List.Chain' tmKeyLe l := by
  induction l with
  | nil => simp [tmSortedB]
  | cons a rest ih =>
    cases rest with
    | nil => simp [tmSortedB]
    | cons b rest2 =>
      rw [tmSortedB, Bool.and_eq_true, decide_eq_true_iff, List.chain'_cons]
      exact and_congr Iff.rfl ih

/-- Every element of `tm_list_insert t l` is `t` or an element of `l`. -/
theorem tm_list_insert_mem {x t : TM_TCB} :
    ∀ {l : List TM_TCB}, x ∈ tm_list_insert t l → x = t ∨ x ∈ l := by
  intro l
  induction l with
  | nil => simp [tm_list_insert]
  | cons c rest ih =>
    unfold tm_list_insert
    split
    · intro h
      rcases List.mem_cons.1 h with h1 | h1
      · right
        exact h1 ▸ List.mem_cons_self c rest
      · rcases ih h1 with h2 | h2
        · exact Or.inl h2
        · exact Or.inr (List.mem_cons_of_mem c h2)
    · intro h
      rcases List.mem_cons.1 h with h1 | h1
      · exact Or.inl h1
      · exact Or.inr h1

/-- `tm_list_insert` preserves pairwise sortedness by expiration. -/
theorem tm_list_insert_pairwise {t : TM_TCB} :
    ∀ {l : List TM_TCB}, l.Pairwise tmKeyLe → (tm_list_insert t l).Pairwise tmKeyLe := by
  intro l
  induction l with
  | nil =>
    intro _
    simp [tm_list_insert]
  | cons c rest ih =>
    intro hp
    rcases List.pairwise_cons.1 hp with ⟨hc, hrest⟩
    unfold tm_list_insert
    split
    case isTrue hle =>
      refine List.pairwise_cons.2 ⟨?_, ih hrest⟩
      intro x hx
      rcases tm_list_insert_mem hx with rfl | hx2
      · exact hle
      · exact hc x hx2
    case isFalse hgt =>
      refine List.pairwise_cons.2 ⟨?_, hp⟩
      intro x hx
      have htc : tmKeyLe t c := Nat.le_of_lt (Nat.lt_of_not_le hgt)
      rcases List.mem_cons.1 hx with rfl | hx2
      · exact htc
      · exact Nat.le_trans htc (hc x hx2)

/-- The expired-timer processing loop preserves pairwise sortedness. -/
theorem tm_process_expired_loop_pairwise (now : Nat) :
    ∀ (fuel : Nat) {l : List TM_TCB}, l.Pairwise tmKeyLe →
      (tm_process_expired_loop now fuel l).Pairwise tmKeyLe := by
  intro fuel
  induction fuel with
  | zero =>
    intro l h
    exact h
  | succ f ih =>
    intro l h
    match l with
    | [] => exact List.Pairwise.nil
    | t :: rest =>
      simp only [tm_process_expired_loop]
      split
      · split
        · exact ih (tm_list_insert_pairwise (List.Pairwise.of_cons h))
        · exact ih (List.Pairwise.of_cons h)
      · exact h

/-- C9: in every state of the active timer list reachable by the timer
operations — creation through `tm_evafter` / `tm_evevery` / `tm_evwhen` /
`tm_wkafter` / `tm_wkwhen` (all of which link via `tm_list_insert`),
`tm_cancel`, and tick processing with periodic re-insertion — the list is
sorted: traversed head to tail, the expiration ticks are
non-decreasing. -/
theorem c9_timer_list_sorted {l : List TM_TCB} (h : TmReach l) : tmSortedB l = true := by
  have hp : l.Pairwise tmKeyLe := by
    induction h with
    | init => exact List.Pairwise.nil
    | create t _ ih => exact tm_list_insert_pairwise ih
    | cancel tmid _ ih => exact List.Pairwise.sublist (List.eraseP_sublist _) ih
    | tick now fuel _ ih => exact tm_process_expired_loop_pairwise now fuel ih
  rw [tmSortedB_iff_chain]
  exact List.chain'_iff_pairwise.2 hp

/-- Witness for C9: inserting a periodic timer (expire 3, period 4) and a
one-shot (expire 10), then processing a tick at time 5, reaches a state
the theorem certifies sorted. -/
theorem c9_timer_list_sorted_witness :
    TmReach (tm_process_expired_loop 5 4
      (tm_list_insert { timer_id := 1, ttype := TmType.periodic,
                        expire_ticks := 3, period_ticks := 4 }
        (tm_list_insert { timer_id := 2, ttype := TmType.oneshot,
                          expire_ticks := 10, period_ticks := 0 } []))) ∧
    tmSortedB (tm_process_expired_loop 5 4
      (tm_list_insert { timer_id := 1, ttype := TmType.periodic,
                        expire_ticks := 3, period_ticks := 4 }
        (tm_list_insert { timer_id := 2, ttype := TmType.oneshot,
                          expire_ticks := 10, period_ticks := 0 } []))) = true :=
  ⟨TmReach.tick 5 4 (TmReach.create _ (TmReach.create _ TmReach.init)),
    c9_timer_list_sorted (TmReach.tick 5 4 (TmReach.create _ (TmReach.create _ TmReach.init)))⟩

/-- C6 counterexample: on a queue of capacity 2 the first `q_send`
succeeds but the second already returns `QFull` — the claimed `c`
successful sends (here 2) do not fit, because `Q_BUFFER_FULL` reserves one
ring slot to distinguish full from empty. -/
theorem c6_capacity_two_counterexample :
    (qSendUpTo 2048 (fun _ => msgI 0) (qFresh 0 2) 1).1 = [0] ∧
    (q_send_ring 2048 (qSendUpTo 2048 (fun _ => msgI 0) (qFresh 0 2) 1).2.1
        (qSendUpTo 2048 (fun _ => msgI 0) (qFresh 0 2) 1).2.2 (msgI 1)).1 = errQFULL ∧
    errQFULL ≠ 0 := by
  refine ⟨rfl, rfl, by decide⟩

/-- A non-urgent enqueue into a ring holding `k < c - 1` messages placed
at `b … b + k - 1` succeeds and appends at slot `b + k`. -/
theorem q_enqueue_step (total b c k : Nat) (store : Nat → QMsg) (m : QMsg)
    (hc : 2 ≤ c) (hk : k < c - 1) (hb : b + c ≤ total) :
    q_message_enqueue total store
      { buf := { bstart := b, bend := b + c - 1, nextin := b + k, nextout := b },
        count := c, current_messages := k, high_water_mark := k } m false =
    (0, fun i => if i = b + k then m else store i,
      { buf := { bstart := b, bend := b + c - 1, nextin := b + k + 1, nextout := b },
        count := c, current_messages := k + 1, high_water_mark := k + 1 }) := by
  unfold q_message_enqueue
  have hfull : qBufferFull
      { buf := { bstart := b, bend := b + c - 1, nextin := b + k, nextout := b },
        count := c, current_messages := k, high_water_mark := k } = false :=
    decide_eq_false
      (show ¬ (b + k + 1 = b ∨ (b + k = b + c - 1 ∧ b = b)) by omega)
  rw [hfull]
  simp only [Bool.false_eq_true, if_false]
  have hadv : qAdvanceIndex
      { bstart := b, bend := b + c - 1, nextin := b + k, nextout := b } (b + k) =
      b + k + 1 := by
    unfold qAdvanceIndex
    rw [if_neg (show ¬ (b + k = b + c - 1) by omega)]
  rw [if_neg (show ¬ (b + k ≥ total) by omega), hadv]
  simp [Nat.lt_irrefl]

/-- Invariant of the fresh-queue send sequence: after `k ≤ c - 1` sends
every send has returned 0, the cursors and depth are determined, and slot
`b + j` holds the `j`-th message. -/
theorem qSendUpTo_spec (total b c : Nat) (store : Nat → QMsg)
    (hc : 2 ≤ c) (hb : b + c ≤ total) :
    ∀ k, k ≤ c - 1 →
      (qSendUpTo total store (qFresh b c) k).1 = List.replicate k 0 ∧
      (qSendUpTo total store (qFresh b c) k).2.2 =
        { buf := { bstart := b, bend := b + c - 1, nextin := b + k, nextout := b },
          count := c, current_messages := k, high_water_mark := k } ∧
      ∀ j, j < k → (qSendUpTo total store (qFresh b c) k).2.1 (b + j) = msgI j := by
  intro k
  induction k with
  | zero =>
    intro _
    exact ⟨rfl, rfl, fun j hj => absurd hj (Nat.not_lt_zero j)⟩
  | succ k ih =>
    intro hk
    obtain ⟨he, hq, hs⟩ := ih (by omega)
    have hstep := q_enqueue_step total b c k
      (qSendUpTo total store (qFresh b c) k).2.1 (msgI k) hc (by omega) hb
    simp only [qSendUpTo, q_send_ring, hq, hstep]
    refine ⟨by rw [he, List.replicate_succ'], rfl, fun j hj => ?_⟩
    rcases Nat.lt_succ_iff_lt_or_eq.1 hj with hj2 | hj2
    · rw [if_neg (show ¬ (b + j = b + k) by omega)]
      exact hs j hj2
    · rw [hj2, if_pos rfl]

/-- C6 (amended): for every queue freshly created with capacity `c` (and
no concurrent receivers), exactly `c - 1` consecutive `q_send` calls
succeed — one ring slot is reserved to distinguish full from empty — and
send number `c` returns `QFull`; after one `q_receive`, which returns the
oldest message, a retried `q_send` succeeds. -/
theorem c6_queue_backpressure (total b c : Nat) (store : Nat → QMsg)
    (hc : 2 ≤ c) (hb : b + c ≤ total) :
    (qSendUpTo total store (qFresh b c) (c - 1)).1 = List.replicate (c - 1) 0 ∧
    (q_send_ring total (qSendUpTo total store (qFresh b c) (c - 1)).2.1
        (qSendUpTo total store (qFresh b c) (c - 1)).2.2 (msgI (c - 1))).1 = errQFULL ∧
    (q_message_dequeue total (qSendUpTo total store (qFresh b c) (c - 1)).2.1
        (qSendUpTo total store (qFresh b c) (c - 1)).2.2).1 = 0 ∧
    (q_message_dequeue total (qSendUpTo total store (qFresh b c) (c - 1)).2.1
        (qSendUpTo total store (qFresh b c) (c - 1)).2.2).2.1 = some (msgI 0) ∧
    (q_send_ring total (qSendUpTo total store (qFresh b c) (c - 1)).2.1
        (q_message_dequeue total (qSendUpTo total store (qFresh b c) (c - 1)).2.1
          (qSendUpTo total store (qFresh b c) (c - 1)).2.2).2.2 (msgI (c - 1))).1 = 0 := by
  obtain ⟨he, hq, hs⟩ :=
    qSendUpTo_spec total b c store hc hb (c - 1) (Nat.le_refl _)
  have hfull : qBufferFull
      { buf := { bstart := b, bend := b + c - 1, nextin := b + (c - 1), nextout := b },
        count := c, current_messages := c - 1, high_water_mark := c - 1 } = true :=
    decide_eq_true
      (show b + (c - 1) + 1 = b ∨ (b + (c - 1) = b + c - 1 ∧ b = b) by omega)
  have hdeq : q_message_dequeue total (qSendUpTo total store (qFresh b c) (c - 1)).2.1
      { buf := { bstart := b, bend := b + c - 1, nextin := b + (c - 1), nextout := b },
        count := c, current_messages := c - 1, high_water_mark := c - 1 } =
      (0, some ((qSendUpTo total store (qFresh b c) (c - 1)).2.1 b),
        { buf := { bstart := b, bend := b + c - 1, nextin := b + (c - 1), nextout := b + 1 },
          count := c, current_messages := c - 1 - 1, high_water_mark := c - 1 }) := by
    unfold q_message_dequeue
    have hempty : qBufferEmpty
        { buf := { bstart := b, bend := b + c - 1, nextin := b + (c - 1), nextout := b },
          count := c, current_messages := c - 1, high_water_mark := c - 1 } = false :=
      decide_eq_false (show ¬ (b + (c - 1) = b) by omega)
    rw [hempty]
    simp only [Bool.false_eq_true, if_false]
    rw [if_neg (show ¬ (b ≥ total) by omega)]
    have hadv : qAdvanceIndex
        { bstart := b, bend := b + c - 1, nextin := b + (c - 1), nextout := b } b =
        b + 1 := by
      unfold qAdvanceIndex
      rw [if_neg (show ¬ (b = b + c - 1) by omega)]
    rw [hadv]
  have hretry : (q_message_enqueue total (qSendUpTo total store (qFresh b c) (c - 1)).2.1
      { buf := { bstart := b, bend := b + c - 1, nextin := b + (c - 1), nextout := b + 1 },
        count := c, current_messages := c - 1 - 1, high_water_mark := c - 1 }
      (msgI (c - 1)) false).1 = 0 := by
    unfold q_message_enqueue
    have hnf : qBufferFull
        { buf := { bstart := b, bend := b + c - 1, nextin := b + (c - 1), nextout := b + 1 },
          count := c, current_messages := c - 1 - 1, high_water_mark := c - 1 } = false :=
      decide_eq_false
        (show ¬ (b + (c - 1) + 1 = b + 1 ∨ (b + (c - 1) = b + c - 1 ∧ b + 1 = b)) by omega)
    rw [hnf]
    simp only [Bool.false_eq_true, if_false]
    rw [if_neg (show ¬ (b + (c - 1) ≥ total) by omega)]
  refine ⟨he, ?_, ?_, ?_, ?_⟩
  · unfold q_send_ring
    rw [hq]
    unfold q_message_enqueue
    rw [hfull]
    rfl
  · rw [hq, hdeq]
  · rw [hq, hdeq]
    exact congrArg some (hs 0 (by omega))
  · unfold q_send_ring
    rw [hq, hdeq]
    exact hretry

/-- Witness for C6 (amended) at capacity 4 starting at arena slot 0. -/
theorem c6_queue_backpressure_witness :
    (qSendUpTo 2048 (fun _ => msgI 9) (qFresh 0 4) 3).1 = List.replicate 3 0 ∧
    (q_send_ring 2048 (qSendUpTo 2048 (fun _ => msgI 9) (qFresh 0 4) 3).2.1
        (qSendUpTo 2048 (fun _ => msgI 9) (qFresh 0 4) 3).2.2 (msgI 3)).1 = errQFULL ∧
    (q_message_dequeue 2048 (qSendUpTo 2048 (fun _ => msgI 9) (qFresh 0 4) 3).2.1
        (qSendUpTo 2048 (fun _ => msgI 9) (qFresh 0 4) 3).2.2).1 = 0 ∧
    (q_message_dequeue 2048 (qSendUpTo 2048 (fun _ => msgI 9) (qFresh 0 4) 3).2.1
        (qSendUpTo 2048 (fun _ => msgI 9) (qFresh 0 4) 3).2.2).2.1 = some (msgI 0) ∧
    (q_send_ring 2048 (qSendUpTo 2048 (fun _ => msgI 9) (qFresh 0 4) 3).2.1
        (q_message_dequeue 2048 (qSendUpTo 2048 (fun _ => msgI 9) (qFresh 0 4) 3).2.1
          (qSendUpTo 2048 (fun _ => msgI 9) (qFresh 0 4) 3).2.2).2.2 (msgI 3)).1 = 0 := by
  have h := c6_queue_backpressure 2048 0 4 (fun _ => msgI 9) (by decide) (by decide)
  simpa using h

end GXK
